import Mathlib

/-!
Verification of the fetch engine of the reading-list generator
(`src/reading_list/github_client.py` and `src/reading_list/config.py`).

The Python code is shallowly embedded: JSON values are an inductive type,
Python exceptions are an error type threaded through `Except`, the HTTP
transport is a list of outcomes consumed request by request, and the two
fetch loops are functions from a transport trace to their observable
result (records produced, requests issued, sleeps performed, final client
state, and the surfaced error if any).
-/

namespace ReadingList

/-- Python/JSON values as they appear in API payloads and response bodies. -/
inductive Json where
  | null
  | bool (b : Bool)
  | int (n : Int)
  | str (s : String)
  | arr (elems : List Json)
  | obj (fields : List (String × Json))
deriving Repr, Inhabited

/-- Python exceptions observable at the fetch-engine boundary.
`gitHubAPIError`/`rateLimitError` are the typed errors declared at
github_client.py lines 114-127; the rest are raw Python exceptions. -/
inductive PyError where
  | keyError (key : String)
  | typeError
  | attributeError (attr : String)
  | gitHubAPIError (message : String) (status_code : Option Int)
  | rateLimitError (reset_time : Option Int)
deriving Repr, DecidableEq

/-- Python truthiness (`if not data`) for the JSON values handled by the code. -/
def Json.pyFalsy : Json → Bool
  | .null => true
  | .bool b => !b
  | .int n => n == 0
  | .str s => s.isEmpty
  | .arr elems => elems.isEmpty
  | .obj fields => fields.isEmpty

/-- Python subscription `data[key]`: KeyError when a dict lacks the key,
TypeError when the value is not a dict (string keys on non-dicts). -/
def Json.getItem : Json → String → Except PyError Json
  | .obj fields, key =>
    match fields.lookup key with
    | some v => .ok v
    | none => .error (.keyError key)
  | _, _ => .error .typeError

/-- Python `data.get(key)`: `none` models Python's `None` default for an
absent key. Only reached on dict values in `from_api_response` (the
required-field subscriptions run first), so non-dicts map to `none`. -/
def Json.dictGet : Json → String → Option Json
  | .obj fields, key => fields.lookup key
  | _, _ => none

/-- Python iteration `for x in data`: lists yield elements, dicts yield
their keys, strings their characters; other values raise TypeError. -/
def Json.pyIter : Json → Except PyError (List Json)
  | .arr elems => .ok elems
  | .obj fields => .ok (fields.map (fun kv => .str kv.1))
  | .str s => .ok (s.toList.map (fun c => .str (String.singleton c)))
  | _ => .error .typeError

/-- `Repository._parse_datetime` (github_client.py 103-111), with the
library call `datetime.fromisoformat` abstracted as the parameter `fiso`
(`none` models a `ValueError`). A falsy argument returns `None`; a truthy
non-string raises AttributeError at `.replace`, which the
`except (ValueError, AttributeError)` clause also turns into `None`.
Points in time are modelled as integers. -/
def parse_datetime (fiso : String → Option Int) (date_str : Json) : Option Int :=
  if date_str.pyFalsy then none
  else
    match date_str with
    | .str s => fiso (s.replace "Z" "+00:00")
    | _ => none

/-- The `Repository` dataclass (github_client.py 19-44). Python performs no
runtime type checking on dataclass fields, so fields assigned raw payload
values keep type `Json`; the three timestamps hold the result of
`_parse_datetime`. -/
structure Repository where
  id : Json
  name : Json
  full_name : Json
  description : Json
  html_url : Json
  stargazers_count : Json
  language : Json
  topics : Json
  created_at : Option Int
  updated_at : Option Int
  pushed_at : Option Int
  size : Json
  default_branch : Json
  archived : Json
  disabled : Json
  private_flag : Json
  fork : Json
  license : Json
  open_issues_count : Json
  forks_count : Json
  watchers_count : Json
  network_count : Json
  subscribers_count : Json
deriving Repr, Inhabited

/-- `Repository.from_api_response` (github_client.py 74-101). Required
fields use subscription (`data["id"]`, ...), which raises; optional fields
use `data.get(...)` with the defaults of the source. Python evaluates the
argument expressions left to right, so the first missing required field in
source order determines the raised KeyError. -/
def Repository.from_api_response (fiso : String → Option Int) (data : Json) :
    Except PyError Repository := do
  let idv ← data.getItem "id"
  let namev ← data.getItem "name"
  let full_namev ← data.getItem "full_name"
  let descriptionv := (data.dictGet "description").getD .null
  let html_urlv ← data.getItem "html_url"
  let starsv ← data.getItem "stargazers_count"
  .ok {
    id := idv
    name := namev
    full_name := full_namev
    description := descriptionv
    html_url := html_urlv
    stargazers_count := starsv
    language := (data.dictGet "language").getD .null
    topics := (data.dictGet "topics").getD (.arr [])
    created_at := parse_datetime fiso ((data.dictGet "created_at").getD .null)
    updated_at := parse_datetime fiso ((data.dictGet "updated_at").getD .null)
    pushed_at := parse_datetime fiso ((data.dictGet "pushed_at").getD .null)
    size := (data.dictGet "size").getD (.int 0)
    default_branch := (data.dictGet "default_branch").getD (.str "main")
    archived := (data.dictGet "archived").getD (.bool false)
    disabled := (data.dictGet "disabled").getD (.bool false)
    private_flag := (data.dictGet "private").getD (.bool false)
    fork := (data.dictGet "fork").getD (.bool false)
    license := (data.dictGet "license").getD .null
    open_issues_count := (data.dictGet "open_issues_count").getD (.int 0)
    forks_count := (data.dictGet "forks_count").getD (.int 0)
    watchers_count := (data.dictGet "watchers_count").getD (.int 0)
    network_count := (data.dictGet "network_count").getD (.int 0)
    subscribers_count := (data.dictGet "subscribers_count").getD (.int 0) }

/-- The list comprehension
`[Repository.from_api_response(repo_data) for repo_data in data]`
(github_client.py 246): builds the whole list, or raises the first
parse exception. -/
def parse_page (fiso : String → Option Int) : List Json → Except PyError (List Repository)
  | [] => .ok []
  | d :: rest => do
    let r ← Repository.from_api_response fiso d
    let rs ← parse_page fiso rest
    .ok (r :: rs)

/-- The incremental emission of the concurrent form
(`for repo_data in data: yield Repository.from_api_response(repo_data)`,
github_client.py 306-307): records already parsed are yielded before a
later element raises. -/
def yield_page (fiso : String → Option Int) : List Json → List Repository × Option PyError
  | [] => ([], none)
  | d :: rest =>
    match Repository.from_api_response fiso d with
    | .error e => ([], some e)
    | .ok r =>
      let (ys, err) := yield_page fiso rest
      (r :: ys, err)

/-- `GitHubConfig` (config.py 12-22). Exactly the fields the source
declares: in particular there is no `request_delay` field here — a field of
that name exists only on `PerformanceConfig` (config.py 143), and the
client is constructed with `config.github` (pipeline.py 48). -/
structure GitHubConfig where
  username : String
  token : Option String
  base_url : String
  rate_limit : Int
  timeout : Int
  retry_attempts : Nat
  retry_delay : Int
  cache_ttl : Int
  enable_cache : Bool
deriving Repr, DecidableEq

/-- Field defaults of `GitHubConfig` (config.py 12-22). -/
def defaultGitHubConfig : GitHubConfig :=
  { username := "your-username"
    token := none
    base_url := "https://api.github.com"
    rate_limit := 5000
    timeout := 30
    retry_attempts := 3
    retry_delay := 1
    cache_ttl := 3600
    enable_cache := true }

/-- Python attribute access `self.config.request_delay`
(github_client.py 258 and 318). `GitHubConfig` declares no such field, so
the lookup raises AttributeError. -/
def GitHubConfig.request_delay_attr (_ : GitHubConfig) : Except PyError Int :=
  .error (.attributeError "request_delay")

/-- One HTTP response as the client observes it: status, the two
rate-limit headers when present (already int-converted), the body text,
and the result of JSON-decoding the body (`none` when decoding fails). -/
structure HttpResponse where
  status_code : Int
  rate_limit_remaining : Option Int
  rate_limit_reset : Option Int
  text : String
  body : Option Json
deriving Repr, Inhabited

/-- One outcome the transport can deliver for one wire request. The
transport itself is a list of outcomes consumed in order; the core only
consumes this capability and never implements it. -/
inductive TransportOutcome where
  | response (r : HttpResponse)
  | timeout
  | connectionFailure
deriving Repr, Inhabited

/-- The `status_forcelist` of `_create_session` (github_client.py 149). -/
def status_forcelist : List Int := [429, 500, 502, 503, 504]

/-- The retry strategy object built by `_create_session`
(github_client.py 146-150): `Retry(total=..., backoff_factor=...)`. -/
structure RetryStrategy where
  total : Nat
  backoff_factor : Int
deriving Repr, DecidableEq

/-- `GitHubClient._create_session` (github_client.py 141-163), reduced to
the retry strategy it installs: `total` is `config.retry_attempts` and
`backoff_factor` is `config.retry_delay`. -/
def _create_session (config : GitHubConfig) : RetryStrategy :=
  { total := config.retry_attempts, backoff_factor := config.retry_delay }

/-- Modelled from the dependency urllib3 (not part of this repository):
`Retry.get_backoff_time` makes the k-th consecutive retry (1-indexed)
sleep `backoff_factor * 2 ** (k - 1)` seconds before it is issued. -/
def RetryStrategy.get_backoff_time (s : RetryStrategy) (k : Nat) : Int :=
  s.backoff_factor * 2 ^ (k - 1)

/-- Failures `session.request` can raise after the retry adapter gives up,
mirroring the `requests` exceptions the source catches
(github_client.py 212-217). -/
inductive RequestFailure where
  | timeoutError
  | connectionError
  | retryExhausted
deriving Repr, DecidableEq

/-- Observable result of one `session.request` call: wire requests issued,
backoff sleeps performed by the retry adapter, and the final outcome. -/
structure SessionResult where
  requests_made : Nat
  sleeps : List Int
  outcome : Except RequestFailure HttpResponse
deriving Repr, Inhabited

/-- `session.request` under the `HTTPAdapter` retry strategy of
`_create_session`: statuses in `status_forcelist`, timeouts and connection
failures are retried while the retry budget lasts, sleeping
`get_backoff_time` before each retry; any other status is returned at once
with no retry. An exhausted trace models an unreachable server and
surfaces as a connection failure with no outcome consumed. `k` counts the
retries already taken in this call (0 at entry). -/
def sessionRequest (s : RetryStrategy) :
    List TransportOutcome → Nat → Nat → SessionResult
  | [], _, _ => ⟨0, [], .error .connectionError⟩
  | .response r :: rest, retriesLeft, k =>
    if r.status_code ∈ status_forcelist then
      match retriesLeft with
      | 0 => ⟨1, [], .error .retryExhausted⟩
      | n + 1 =>
        let tail := sessionRequest s rest n (k + 1)
        ⟨tail.requests_made + 1, s.get_backoff_time (k + 1) :: tail.sleeps, tail.outcome⟩
    else ⟨1, [], .ok r⟩
  | .timeout :: rest, retriesLeft, k =>
    match retriesLeft with
    | 0 => ⟨1, [], .error .timeoutError⟩
    | n + 1 =>
      let tail := sessionRequest s rest n (k + 1)
      ⟨tail.requests_made + 1, s.get_backoff_time (k + 1) :: tail.sleeps, tail.outcome⟩
  | .connectionFailure :: rest, retriesLeft, k =>
    match retriesLeft with
    | 0 => ⟨1, [], .error .connectionError⟩
    | n + 1 =>
      let tail := sessionRequest s rest n (k + 1)
      ⟨tail.requests_made + 1, s.get_backoff_time (k + 1) :: tail.sleeps, tail.outcome⟩

/-- The mutable fields of a `GitHubClient` instance
(github_client.py 133-137): the injected config, the session it built, and
the two rate-limit counters. -/
structure ClientState where
  config : GitHubConfig
  session : RetryStrategy
  rate_limit_remaining : Int
  rate_limit_reset : Int
deriving Repr, DecidableEq

/-- `GitHubClient.__init__` (github_client.py 133-137): counters start at
the configured nominal quota and reset 0. -/
def GitHubClient.init (config : GitHubConfig) : ClientState :=
  { config := config
    session := _create_session config
    rate_limit_remaining := config.rate_limit
    rate_limit_reset := 0 }

/-- Whether the second character list is an initial segment of the
first. -/
def charsStartWith : List Char → List Char → Bool
  | _, [] => true
  | [], _ :: _ => false
  | c :: cs, p :: ps => c == p && charsStartWith cs ps

/-- Whether the second character list occurs contiguously in the first. -/
def charsContain : List Char → List Char → Bool
  | [], pat => pat.isEmpty
  | c :: cs, pat => charsStartWith (c :: cs) pat || charsContain cs pat

/-- The check `"rate limit" in response.text.lower()`
(github_client.py 173 and 202), over the character sequence of the text
lower-cased character by character. -/
def mentions_rate_limit (text : String) : Bool :=
  charsContain (text.toList.map Char.toLower) ("rate limit".toList)

/-- `GitHubClient._check_rate_limit` (github_client.py 165-174): update
each counter from its header when present, then raise `RateLimitError`
with the (just-updated) reset counter on a 403 whose body mentions the
rate limit. -/
def _check_rate_limit (st : ClientState) (r : HttpResponse) :
    ClientState × Option PyError :=
  let st1 :=
    match r.rate_limit_remaining with
    | some v => { st with rate_limit_remaining := v }
    | none => st
  let st2 :=
    match r.rate_limit_reset with
    | some v => { st1 with rate_limit_reset := v }
    | none => st1
  if r.status_code == 403 && mentions_rate_limit r.text then
    (st2, some (.rateLimitError (some st2.rate_limit_reset)))
  else (st2, none)

/-- Observable result of one `_make_request` call. -/
structure RequestResult where
  requests_made : Nat
  sleeps : List Int
  state : ClientState
  result : Except PyError Json
deriving Repr

/-- `GitHubClient._make_request` (github_client.py 176-217). The request
goes through the retrying session; transport-level failures are wrapped as
`GitHubAPIError` by the `except` clauses (requests' `JSONDecodeError` and
`RetryError` are `RequestException` subclasses, hence also wrapped); a
delivered response first passes `_check_rate_limit` and is then dispatched
on its status. URL and method strings are abstracted away: the n-th wire
request consumes the n-th transport outcome. -/
def _make_request (st : ClientState) (trace : List TransportOutcome) :
    RequestResult :=
  let sres := sessionRequest st.session trace st.session.total 0
  match sres.outcome with
  | .error .timeoutError =>
    ⟨sres.requests_made, sres.sleeps, st,
      .error (.gitHubAPIError
        ("Request timeout after " ++ toString st.config.timeout ++ " seconds") none)⟩
  | .error .connectionError =>
    ⟨sres.requests_made, sres.sleeps, st,
      .error (.gitHubAPIError "Connection error - check your internet connection" none)⟩
  | .error .retryExhausted =>
    ⟨sres.requests_made, sres.sleeps, st,
      .error (.gitHubAPIError "Request failed: RetryError" none)⟩
  | .ok r =>
    match _check_rate_limit st r with
    | (st2, some e) => ⟨sres.requests_made, sres.sleeps, st2, .error e⟩
    | (st2, none) =>
      if r.status_code == 200 then
        match r.body with
        | some j => ⟨sres.requests_made, sres.sleeps, st2, .ok j⟩
        | none =>
          ⟨sres.requests_made, sres.sleeps, st2,
            .error (.gitHubAPIError "Request failed: JSONDecodeError" none)⟩
      else if r.status_code == 404 then
        ⟨sres.requests_made, sres.sleeps, st2,
          .error (.gitHubAPIError "Resource not found" (some 404))⟩
      else if r.status_code == 401 then
        ⟨sres.requests_made, sres.sleeps, st2,
          .error (.gitHubAPIError "Authentication failed - check your token" (some 401))⟩
      else if r.status_code == 403 then
        if mentions_rate_limit r.text then
          ⟨sres.requests_made, sres.sleeps, st2,
            .error (.rateLimitError (some st2.rate_limit_reset))⟩
        else
          ⟨sres.requests_made, sres.sleeps, st2,
            .error (.gitHubAPIError ("Access forbidden: " ++ r.text) (some 403))⟩
      else
        ⟨sres.requests_made, sres.sleeps, st2,
          .error (.gitHubAPIError
            ("API request failed with status " ++ toString r.status_code ++ ": " ++ r.text)
            (some r.status_code))⟩

/-- Observable result of `get_starred_repositories_sync`: the returned
list or the raised exception, wire requests issued, all sleeps performed
(retry backoffs, plus the inter-page delay were it ever reached), and the
final client state. -/
structure SyncFetchResult where
  result : Except PyError (List Repository)
  requests_made : Nat
  sleeps : List Int
  state : ClientState
deriving Repr

/-- The `while True` loop of `get_starred_repositories_sync`
(github_client.py 228-267). One iteration: `_make_request` for the current
page (its two `except` clauses only re-raise, so errors propagate
unchanged); `if not data: break`; the list comprehension over `data`
(KeyError/TypeError propagate uncaught); `repositories.extend(...)`;
`if len(data) < per_page: break`; `page += 1`; then the read of
`self.config.request_delay`, which raises AttributeError (the field does
not exist on `GitHubConfig`), so the loop body below that read — the
sleep and the next iteration — is unreachable. Fuel bounds the recursion;
the wrapper supplies more fuel than the trace could ever consume. -/
def get_starred_repositories_sync_loop (fiso : String → Option Int) (per_page : Int) :
    ClientState → List TransportOutcome → List Repository → Nat → List Int → Nat →
    SyncFetchResult
  | st, _, repositories, reqs, sleeps, 0 =>
    ⟨.ok repositories, reqs, sleeps, st⟩
  | st, trace, repositories, reqs, sleeps, fuel + 1 =>
    let mr := _make_request st trace
    let reqs2 := reqs + mr.requests_made
    let sleeps2 := sleeps ++ mr.sleeps
    match mr.result with
    | .error e => ⟨.error e, reqs2, sleeps2, mr.state⟩
    | .ok data =>
      if data.pyFalsy then ⟨.ok repositories, reqs2, sleeps2, mr.state⟩
      else
        match data.pyIter with
        | .error e => ⟨.error e, reqs2, sleeps2, mr.state⟩
        | .ok items =>
          match parse_page fiso items with
          | .error e => ⟨.error e, reqs2, sleeps2, mr.state⟩
          | .ok page_repos =>
            let repositories2 := repositories ++ page_repos
            if (items.length : Int) < per_page then
              ⟨.ok repositories2, reqs2, sleeps2, mr.state⟩
            else
              match mr.state.config.request_delay_attr with
              | .error e => ⟨.error e, reqs2, sleeps2, mr.state⟩
              | .ok delay =>
                get_starred_repositories_sync_loop fiso per_page mr.state
                  (trace.drop mr.requests_made) repositories2 reqs2
                  (sleeps2 ++ if delay > 0 then [delay] else []) fuel

/-- `GitHubClient.get_starred_repositories_sync` (github_client.py
219-270), over a freshly constructed client. -/
def get_starred_repositories_sync (fiso : String → Option Int)
    (config : GitHubConfig) (per_page : Int) (trace : List TransportOutcome) :
    SyncFetchResult :=
  get_starred_repositories_sync_loop fiso per_page (GitHubClient.init config)
    trace [] 0 [] (trace.length + 1)

/-- Observable result of consuming the async generator
`get_starred_repositories` to its end: the records yielded before
termination, the terminating exception (`none` for normal exhaustion),
wire requests issued, and sleeps performed. -/
structure AsyncFetchResult where
  yielded : List Repository
  termination : Option PyError
  requests_made : Nat
  sleeps : List Int
deriving Repr

/-- Maps an exception raised inside the async generator's `try` to what
the consumer observes. The first except clause,
`except aiohttp.ClientTimeout:` (github_client.py 334), names aiohttp's
timeout-configuration dataclass — used as configuration at line 286 — and
not an exception class. In CPython, matching an in-flight exception
against a non-exception class raises
`TypeError: catching classes that do not inherit from BaseException is not allowed`,
and clause matching runs in order before any later clause can apply, so
every exception raised in the try body (github_client.py 298-332) — the
typed raises for non-200 statuses, parse failures while yielding, the
`request_delay` AttributeError, and transport-level errors — surfaces to
the consumer as a raw TypeError; the wrapping clauses at lines 335-337
are unreachable. -/
def async_except_clauses (_ : PyError) : PyError := .typeError

/-- The `while True` loop of the async generator `get_starred_repositories`
(github_client.py 289-337). Differences from the blocking form, kept
faithfully: the aiohttp session applies no retry strategy (one outcome per
page request); `_check_rate_limit` is never called, so rate-limit state is
never updated; a 403 raises `RateLimitError()` with no reset time and no
body check; a 404 carries a different message; records are yielded one by
one, so a page's earlier records are delivered even when a later element
raises; the read of `self.config.request_delay` (line 318) raises
AttributeError exactly as in the blocking form. Every raised exception
then passes through `async_except_clauses`, whose invalid first clause
turns it into a raw TypeError before it reaches the consumer; transport-
level failures (connection errors, timeouts, undecodable bodies), whose
in-flight aiohttp/asyncio exceptions have no constructor here, are
likewise surfaced as TypeError directly. -/
def get_starred_repositories_loop (fiso : String → Option Int)
    (config : GitHubConfig) (per_page : Int) :
    List TransportOutcome → List Repository → Nat → Nat → AsyncFetchResult
  | _, acc, reqs, 0 => ⟨acc, none, reqs, []⟩
  | trace, acc, reqs, fuel + 1 =>
    match trace with
    | [] =>
      ⟨acc, some .typeError, reqs, []⟩
    | .timeout :: _ => ⟨acc, some .typeError, reqs + 1, []⟩
    | .connectionFailure :: _ =>
      ⟨acc, some .typeError, reqs + 1, []⟩
    | .response r :: rest =>
      if r.status_code == 200 then
        match r.body with
        | none =>
          ⟨acc, some .typeError, reqs + 1, []⟩
        | some data =>
          if data.pyFalsy then ⟨acc, none, reqs + 1, []⟩
          else
            match data.pyIter with
            | .error e => ⟨acc, some (async_except_clauses e), reqs + 1, []⟩
            | .ok items =>
              let (ys, err) := yield_page fiso items
              let acc2 := acc ++ ys
              match err with
              | some e => ⟨acc2, some (async_except_clauses e), reqs + 1, []⟩
              | none =>
                if (items.length : Int) < per_page then ⟨acc2, none, reqs + 1, []⟩
                else
                  match config.request_delay_attr with
                  | .error e => ⟨acc2, some (async_except_clauses e), reqs + 1, []⟩
                  | .ok delay =>
                    let tail :=
                      get_starred_repositories_loop fiso config per_page rest acc2
                        (reqs + 1) fuel
                    { tail with
                      sleeps := (if delay > 0 then [delay] else []) ++ tail.sleeps }
      else if r.status_code == 404 then
        ⟨acc, some (async_except_clauses
          (.gitHubAPIError ("User not found: " ++ config.username) (some 404))),
          reqs + 1, []⟩
      else if r.status_code == 401 then
        ⟨acc, some (async_except_clauses
          (.gitHubAPIError "Authentication failed - check your token" (some 401))),
          reqs + 1, []⟩
      else if r.status_code == 403 then
        ⟨acc, some (async_except_clauses (.rateLimitError none)), reqs + 1, []⟩
      else
        ⟨acc,
          some (async_except_clauses (.gitHubAPIError
            ("API request failed with status " ++ toString r.status_code ++ ": " ++ r.text)
            (some r.status_code))),
          reqs + 1, []⟩

/-- `GitHubClient.get_starred_repositories` (github_client.py 272-337),
fully consumed by a caller. -/
def get_starred_repositories (fiso : String → Option Int)
    (config : GitHubConfig) (per_page : Int) (trace : List TransportOutcome) :
    AsyncFetchResult :=
  get_starred_repositories_loop fiso config per_page trace [] 0 (trace.length + 1)

/-- Required fields of `from_api_response`, in the order Python evaluates
their subscriptions (github_client.py 78-83). -/
def required_fields : List String :=
  ["id", "name", "full_name", "html_url", "stargazers_count"]

/-- Shorthand constructor for concrete responses used in witnesses and
counterexamples. -/
def mkResponse (status : Int) (rem reset : Option Int) (text : String)
    (body : Option Json) : HttpResponse :=
  { status_code := status, rate_limit_remaining := rem, rate_limit_reset := reset,
    text := text, body := body }

/-- A delivered 200 page whose body is the given JSON array and which
carries no rate-limit headers. -/
def okPage (elems : List Json) : TransportOutcome :=
  .response (mkResponse 200 none none "" (some (.arr elems)))

/-- A minimal well-formed repository payload with the given id. -/
def sampleRepo (n : Int) : Json :=
  .obj [("id", .int n), ("name", .str "repo"), ("full_name", .str "user/repo"),
        ("html_url", .str "https://example.test/repo"), ("stargazers_count", .int 5)]

theorem except_bind_ok {ε α β : Type} (a : α) (f : α → Except ε β) :
    (Except.ok a >>= f) = f a := rfl

theorem except_bind_error {ε α β : Type} (e : ε) (f : α → Except ε β) :
    ((Except.error e : Except ε α) >>= f) = .error e := rfl

theorem parse_datetime_none_of_fiso_none (fiso : String → Option Int) (s : String)
    (h : fiso (s.replace "Z" "+00:00") = none) :
    parse_datetime fiso (.str s) = none := by
  simp [parse_datetime, Json.pyFalsy, h]

/-- Success shape of `from_api_response` when the five required fields are
present: the produced record holds the looked-up values verbatim and the
documented defaults for the rest. -/
theorem from_api_response_required_ok (fiso : String → Option Int)
    (kvs : List (String × Json)) (i n fn hu sc : Json)
    (hid : kvs.lookup "id" = some i) (hn : kvs.lookup "name" = some n)
    (hfn : kvs.lookup "full_name" = some fn) (hhu : kvs.lookup "html_url" = some hu)
    (hsc : kvs.lookup "stargazers_count" = some sc) :
    Repository.from_api_response fiso (.obj kvs) = .ok {
      id := i
      name := n
      full_name := fn
      description := (kvs.lookup "description").getD .null
      html_url := hu
      stargazers_count := sc
      language := (kvs.lookup "language").getD .null
      topics := (kvs.lookup "topics").getD (.arr [])
      created_at := parse_datetime fiso ((kvs.lookup "created_at").getD .null)
      updated_at := parse_datetime fiso ((kvs.lookup "updated_at").getD .null)
      pushed_at := parse_datetime fiso ((kvs.lookup "pushed_at").getD .null)
      size := (kvs.lookup "size").getD (.int 0)
      default_branch := (kvs.lookup "default_branch").getD (.str "main")
      archived := (kvs.lookup "archived").getD (.bool false)
      disabled := (kvs.lookup "disabled").getD (.bool false)
      private_flag := (kvs.lookup "private").getD (.bool false)
      fork := (kvs.lookup "fork").getD (.bool false)
      license := (kvs.lookup "license").getD .null
      open_issues_count := (kvs.lookup "open_issues_count").getD (.int 0)
      forks_count := (kvs.lookup "forks_count").getD (.int 0)
      watchers_count := (kvs.lookup "watchers_count").getD (.int 0)
      network_count := (kvs.lookup "network_count").getD (.int 0)
      subscribers_count := (kvs.lookup "subscribers_count").getD (.int 0) } := by
  simp [Repository.from_api_response, Json.getItem, Json.dictGet,
    hid, hn, hfn, hhu, hsc, except_bind_ok]

/-- C7, counterexample: a payload whose required fields are all present
but carry wrong-typed values (strings where the API documents integers)
is accepted by `from_api_response` — it does not fail at all, so in
particular it does not fail with a dedicated typed parse error. -/
theorem C7_wrong_type_accepted :
    (Repository.from_api_response (fun _ => none)
        (.obj [("id", .str "notanint"), ("name", .str "n"), ("full_name", .str "o/n"),
               ("html_url", .str "u"), ("stargazers_count", .str "many")])).map
        Repository.id
      = .ok (.str "notanint") := by
  rfl

/-- C7, amended: a raw payload missing any required field fails — with a
raw `KeyError` naming the first missing required field in evaluation
order, there being no dedicated `ParseError` type in the code — and never
constructs a record with a substituted default; a wrong-typed present
value, however, is accepted unvalidated (see the counterexample). -/
theorem C7_missing_required_keyerror (fiso : String → Option Int)
    (kvs : List (String × Json))
    (h : ∃ f ∈ required_fields, kvs.lookup f = none) :
    ∃ f ∈ required_fields, kvs.lookup f = none ∧
      Repository.from_api_response fiso (.obj kvs) = .error (.keyError f) := by
  cases hid : kvs.lookup "id" with
  | none =>
    refine ⟨"id", by simp [required_fields], hid, ?_⟩
    simp [Repository.from_api_response, Json.getItem, hid, except_bind_error]
  | some i =>
    cases hn : kvs.lookup "name" with
    | none =>
      refine ⟨"name", by simp [required_fields], hn, ?_⟩
      simp [Repository.from_api_response, Json.getItem, hid, hn,
        except_bind_ok, except_bind_error]
    | some n =>
      cases hfn : kvs.lookup "full_name" with
      | none =>
        refine ⟨"full_name", by simp [required_fields], hfn, ?_⟩
        simp [Repository.from_api_response, Json.getItem, hid, hn, hfn,
          except_bind_ok, except_bind_error]
      | some fn =>
        cases hhu : kvs.lookup "html_url" with
        | none =>
          refine ⟨"html_url", by simp [required_fields], hhu, ?_⟩
          simp [Repository.from_api_response, Json.getItem, hid, hn, hfn, hhu,
            except_bind_ok, except_bind_error]
        | some hu =>
          cases hsc : kvs.lookup "stargazers_count" with
          | none =>
            refine ⟨"stargazers_count", by simp [required_fields], hsc, ?_⟩
            simp [Repository.from_api_response, Json.getItem, hid, hn, hfn, hhu, hsc,
              except_bind_ok, except_bind_error]
          | some sc =>
            rcases h with ⟨f, hf, hnone⟩
            simp [required_fields] at hf
            rcases hf with rfl | rfl | rfl | rfl | rfl <;> simp_all

/-- C7, witness: a concrete payload missing `full_name` raises
`KeyError("full_name")`. -/
theorem C7_missing_required_witness :
    ∃ f ∈ required_fields,
      (List.lookup f [("id", Json.int 1), ("name", Json.str "n"),
        ("html_url", Json.str "u"), ("stargazers_count", Json.int 2)]) = none ∧
      Repository.from_api_response (fun _ => none)
        (.obj [("id", Json.int 1), ("name", Json.str "n"),
          ("html_url", Json.str "u"), ("stargazers_count", Json.int 2)])
        = .error (.keyError f) :=
  C7_missing_required_keyerror (fun _ => none) _ ⟨"full_name", by simp [required_fields], rfl⟩

/-- C8: a payload with all required fields present whose `created_at`,
`updated_at` or `pushed_at` value is a string the datetime parser rejects
is parsed successfully into a record whose corresponding timestamp is
absent (`none`); the malformed timestamp never causes a parse failure. -/
theorem C8_malformed_timestamp_absent (fiso : String → Option Int)
    (kvs : List (String × Json)) (i n fn hu sc : Json)
    (hid : kvs.lookup "id" = some i) (hn : kvs.lookup "name" = some n)
    (hfn : kvs.lookup "full_name" = some fn) (hhu : kvs.lookup "html_url" = some hu)
    (hsc : kvs.lookup "stargazers_count" = some sc) :
    ∃ r, Repository.from_api_response fiso (.obj kvs) = .ok r ∧
      (∀ s, kvs.lookup "created_at" = some (.str s) →
        fiso (s.replace "Z" "+00:00") = none → r.created_at = none) ∧
      (∀ s, kvs.lookup "updated_at" = some (.str s) →
        fiso (s.replace "Z" "+00:00") = none → r.updated_at = none) ∧
      (∀ s, kvs.lookup "pushed_at" = some (.str s) →
        fiso (s.replace "Z" "+00:00") = none → r.pushed_at = none) := by
  refine ⟨_, from_api_response_required_ok fiso kvs i n fn hu sc hid hn hfn hhu hsc,
    ?_, ?_, ?_⟩ <;>
  · intro s hs hf
    simp [hs, parse_datetime_none_of_fiso_none fiso s hf]

/-- C8, witness: a concrete payload whose three timestamp strings are all
rejected by the datetime parser still parses, with all three timestamps
absent. -/
theorem C8_malformed_timestamp_witness :
    ∃ r, Repository.from_api_response (fun _ => none)
        (.obj [("id", Json.int 1), ("name", Json.str "n"), ("full_name", Json.str "o/n"),
          ("html_url", Json.str "u"), ("stargazers_count", Json.int 2),
          ("created_at", Json.str "not-a-date"), ("updated_at", Json.str "also bad"),
          ("pushed_at", Json.str "nope")]) = .ok r ∧
      (∀ s, List.lookup "created_at" [("id", Json.int 1), ("name", Json.str "n"),
          ("full_name", Json.str "o/n"), ("html_url", Json.str "u"),
          ("stargazers_count", Json.int 2), ("created_at", Json.str "not-a-date"),
          ("updated_at", Json.str "also bad"), ("pushed_at", Json.str "nope")]
          = some (.str s) →
        (fun _ => (none : Option Int)) (s.replace "Z" "+00:00") = none → r.created_at = none) ∧
      (∀ s, List.lookup "updated_at" [("id", Json.int 1), ("name", Json.str "n"),
          ("full_name", Json.str "o/n"), ("html_url", Json.str "u"),
          ("stargazers_count", Json.int 2), ("created_at", Json.str "not-a-date"),
          ("updated_at", Json.str "also bad"), ("pushed_at", Json.str "nope")]
          = some (.str s) →
        (fun _ => (none : Option Int)) (s.replace "Z" "+00:00") = none → r.updated_at = none) ∧
      (∀ s, List.lookup "pushed_at" [("id", Json.int 1), ("name", Json.str "n"),
          ("full_name", Json.str "o/n"), ("html_url", Json.str "u"),
          ("stargazers_count", Json.int 2), ("created_at", Json.str "not-a-date"),
          ("updated_at", Json.str "also bad"), ("pushed_at", Json.str "nope")]
          = some (.str s) →
        (fun _ => (none : Option Int)) (s.replace "Z" "+00:00") = none → r.pushed_at = none) :=
  C8_malformed_timestamp_absent (fun _ => none) _ _ _ _ _ _ rfl rfl rfl rfl rfl

/-- C1: evaluation at the failing input — a transport serving N = 2
records in pages of size P = 1. Instead of fetching all pages and
returning both records in order after ceil(N/P) requests, the blocking
fetch raises AttributeError("request_delay") after the first page (the
`GitHubConfig` object has no `request_delay` field), having issued one
request and returned no records. -/
theorem C1_multi_page_fetch_crashes :
    (get_starred_repositories_sync (fun _ => none) defaultGitHubConfig 1
        [okPage [sampleRepo 1], okPage [sampleRepo 2], okPage []]).result
      = .error (.attributeError "request_delay") ∧
    (get_starred_repositories_sync (fun _ => none) defaultGitHubConfig 1
        [okPage [sampleRepo 1], okPage [sampleRepo 2], okPage []]).requests_made = 1 :=
  ⟨rfl, rfl⟩

/-- C3, counterexample: the page-1 response reports remaining = 0 with
reset time 1000000 in the future and is a full page. The tracker is
updated (final state shows remaining 0, reset 1000000), but the fetcher
performs no sleep at all — in particular none until the reset time — and
ends in AttributeError instead: the code contains no preemptive
rate-limit wait. -/
theorem C3_no_preemptive_wait :
    (get_starred_repositories_sync (fun _ => none) defaultGitHubConfig 1
        [.response (mkResponse 200 (some 0) (some 1000000) ""
          (some (.arr [sampleRepo 1]))), okPage [sampleRepo 2], okPage []]).result
      = .error (.attributeError "request_delay") ∧
    (get_starred_repositories_sync (fun _ => none) defaultGitHubConfig 1
        [.response (mkResponse 200 (some 0) (some 1000000) ""
          (some (.arr [sampleRepo 1]))), okPage [sampleRepo 2], okPage []]).requests_made
      = 1 ∧
    (get_starred_repositories_sync (fun _ => none) defaultGitHubConfig 1
        [.response (mkResponse 200 (some 0) (some 1000000) ""
          (some (.arr [sampleRepo 1]))), okPage [sampleRepo 2], okPage []]).sleeps = [] ∧
    (get_starred_repositories_sync (fun _ => none) defaultGitHubConfig 1
        [.response (mkResponse 200 (some 0) (some 1000000) ""
          (some (.arr [sampleRepo 1]))), okPage [sampleRepo 2],
          okPage []]).state.rate_limit_remaining = 0 ∧
    (get_starred_repositories_sync (fun _ => none) defaultGitHubConfig 1
        [.response (mkResponse 200 (some 0) (some 1000000) ""
          (some (.arr [sampleRepo 1]))), okPage [sampleRepo 2],
          okPage []]).state.rate_limit_reset = 1000000 :=
  ⟨rfl, rfl, rfl, rfl, rfl⟩

/-- C3, amended: the blocking fetcher never consults the rate-limit
tracker before issuing a request and never sleeps based on the reset
time: for every transport and configuration, the only sleeps it performs
are the retry adapter's backoff sleeps of the first page request (the
quota observation merely updates the tracker, and quota exhaustion is
surfaced as `RateLimitError` only when a 403 response indicates it). -/
theorem C3_no_reset_based_sleep (fiso : String → Option Int)
    (config : GitHubConfig) (per_page : Int) (trace : List TransportOutcome) :
    (get_starred_repositories_sync fiso config per_page trace).sleeps
      = (_make_request (GitHubClient.init config) trace).sleeps := by
  simp only [get_starred_repositories_sync, get_starred_repositories_sync_loop,
    GitHubConfig.request_delay_attr]
  (repeat' split) <;> simp

/-- C5: evaluation at the failing input — a full first page (exactly
per_page records), after which the code should apply the inter-page
delay. In both forms no delay is slept: reading
`self.config.request_delay` raises AttributeError because `GitHubConfig`
declares no such field (it lives on `PerformanceConfig`, which is never
passed to the client). The blocking form surfaces that AttributeError;
the concurrent form fails at the same point but surfaces a raw TypeError,
its invalid `except aiohttp.ClientTimeout` clause masking the
AttributeError. -/
theorem C5_inter_page_delay_crash :
    (get_starred_repositories_sync (fun _ => none) defaultGitHubConfig 1
        [okPage [sampleRepo 7], okPage []]).result
      = .error (.attributeError "request_delay") ∧
    (get_starred_repositories_sync (fun _ => none) defaultGitHubConfig 1
        [okPage [sampleRepo 7], okPage []]).sleeps = [] ∧
    (get_starred_repositories (fun _ => none) defaultGitHubConfig 1
        [okPage [sampleRepo 7], okPage []]).termination
      = some (async_except_clauses (.attributeError "request_delay")) ∧
    async_except_clauses (.attributeError "request_delay") = .typeError ∧
    (get_starred_repositories (fun _ => none) defaultGitHubConfig 1
        [okPage [sampleRepo 7], okPage []]).sleeps = [] :=
  ⟨rfl, rfl, rfl, rfl, rfl⟩

end ReadingList
